import Mathlib

/-!
Verification of the openclaw desktop supervisor core: the gateway process
supervisor (`gateway.rs`), the health probes (`ollama.rs`, `gateway.rs`),
the Docker CLI probes (`docker.rs`) and the service aggregator
(`services.rs`), shallowly embedded in Lean.

Nondeterministic environment interactions (process spawn, child kill,
HTTP probes, CLI invocations) are passed in explicitly as outcome values,
so every source function becomes a pure Lean function of the supervisor
state and the environment outcome it consumed.
-/

namespace Openclaw

/-- An opaque OS child-process handle (tokio `Child`); identity only. -/
abbrev Child := Nat

/-- `GatewayProcess` from gateway.rs: the one supervised child plus the
captured log lines. -/
structure GatewayProcess where
  child : Option Child
  logs : List String
  deriving DecidableEq, Repr

/-- `GatewayProcess::new()`: no child, empty log buffer. -/
def GatewayProcess.new : GatewayProcess := ⟨none, []⟩

/-- Outcome of `cmd.spawn()` inside `start_gateway`. -/
inductive SpawnOutcome where
  | ok (child : Child)
  | err (e : String)
  deriving DecidableEq, Repr

/-- Outcome of `child.kill().await` inside `stop_gateway`. -/
inductive KillOutcome where
  | ok
  | err (e : String)
  deriving DecidableEq, Repr

/-- Outcome of a `reqwest::get(..).await` probe: a response carrying
whether its status is a success status, a connection error, or a timeout
(the latter two are both the `Err(_)` arm in the source). -/
inductive ProbeOutcome where
  | response (statusSuccess : Bool)
  | connError
  | timeout
  deriving DecidableEq, Repr

/-- `start_gateway` (gateway.rs lines 28-61): errors if a child is already
recorded; otherwise spawns, and on success records the handle and pushes
the started marker; on spawn failure returns the reason and changes
nothing. Returns (result, updated state). -/
def start_gateway (gw : GatewayProcess) (spawn : SpawnOutcome) :
    Except String Unit × GatewayProcess :=
  if gw.child.isSome then
    (.error "Gateway is already running", gw)
  else
    match spawn with
    | .ok child =>
        (.ok (), ⟨some child, gw.logs ++ ["[gateway] Started successfully"]⟩)
    | .err e => (.error ("Failed to start Gateway: " ++ e), gw)

/-- `stop_gateway` (gateway.rs lines 64-75): errors if no child is
recorded; otherwise kills, and on success clears the handle and pushes the
stopped marker; on kill failure returns the reason and leaves the handle
in place. -/
def stop_gateway (gw : GatewayProcess) (kill : KillOutcome) :
    Except String Unit × GatewayProcess :=
  match gw.child with
  | some _ =>
      match kill with
      | .ok => (.ok (), ⟨none, gw.logs ++ ["[gateway] Stopped"]⟩)
      | .err e => (.error ("Failed to kill Gateway: " ++ e), gw)
  | none => (.error "Gateway is not running", gw)

/-- The `match reqwest::get("http://127.0.0.1:18789/health")` arm of
`is_gateway_running` (gateway.rs lines 86-89): success status of a
received response, `false` on any error. -/
def health_check : ProbeOutcome → Bool
  | .response s => s
  | .connError => false
  | .timeout => false

/-- `is_gateway_running` (gateway.rs lines 78-90): `false` immediately
when no child is recorded, otherwise the health-endpoint probe result. -/
def is_gateway_running (gw : GatewayProcess) (probe : ProbeOutcome) : Bool :=
  if gw.child.isNone then false
  else health_check probe

/-- `get_gateway_logs` (gateway.rs lines 93-96): a clone of the log
buffer. -/
def get_gateway_logs (gw : GatewayProcess) : List String :=
  gw.logs

/-- `detect_ollama` (ollama.rs lines 48-53): success status of a received
response from the Ollama base URL, `false` on any error. -/
def detect_ollama : ProbeOutcome → Bool
  | .response s => s
  | .connError => false
  | .timeout => false

/-- Outcome of a `std::process::Command::output()` CLI invocation:
either the binary ran (carrying exit-status success and stdout), or the
binary itself could not be invoked (the `Err(_)` arm). -/
inductive CmdOutcome where
  | ok (statusSuccess : Bool) (stdout : String)
  | err
  deriving DecidableEq, Repr

/-- Rust `str::contains` for a nonempty pattern: the pattern occurs as a
substring iff `splitOn` produces more than one piece. -/
def contains_sub (s pat : String) : Bool :=
  1 < (s.splitOn pat).length

/-- `is_docker_available` (docker.rs lines 15-21): success of the exit
status of `docker info`, `false` when the invocation itself fails. -/
def is_docker_available (o : CmdOutcome) : Bool :=
  match o with
  | .ok s _ => s
  | .err => false

/-- `is_searxng_running` (docker.rs lines 65-77): `docker ps` filtered on
the container name; true iff the trimmed stdout contains "Up"; `false`
when the invocation itself fails. -/
def is_searxng_running (o : CmdOutcome) : Bool :=
  match o with
  | .ok _ stdout => contains_sub stdout.trim "Up"
  | .err => false

/-- `ServiceStatus` from services.rs. -/
structure ServiceStatus where
  name : String
  running : Bool
  port : Option Nat
  health : String
  details : Option String
  deriving DecidableEq, Repr

/-- The environment outcomes a single `check_all_services` pass consumes:
the gateway health probe, the Ollama probe, and the two docker CLI
invocations. -/
structure ProbeEnv where
  gatewayProbe : ProbeOutcome
  ollamaProbe : ProbeOutcome
  dockerInfo : CmdOutcome
  searxngPs : CmdOutcome
  deriving DecidableEq, Repr

/-- `check_all_services` (services.rs lines 52-96): one `ServiceStatus`
per registered service — Gateway, Ollama, Docker, SearXNG — in that
declaration order. -/
def check_all_services (gw : GatewayProcess) (env : ProbeEnv) :
    List ServiceStatus :=
  let gw_running := is_gateway_running gw env.gatewayProbe
  let ollama_running := detect_ollama env.ollamaProbe
  let docker_available := is_docker_available env.dockerInfo
  let searxng_running := is_searxng_running env.searxngPs
  [⟨"Gateway", gw_running, some 18789,
      if gw_running then "healthy" else "not running", none⟩,
   ⟨"Ollama", ollama_running, some 11434,
      if ollama_running then "healthy" else "not running", none⟩,
   ⟨"Docker", docker_available, none,
      if docker_available then "available" else "not installed", none⟩,
   ⟨"SearXNG", searxng_running, some 8888,
      if searxng_running then "healthy" else "not running", none⟩]

/-- `auto_start` (services.rs lines 13-49): attempts `start_gateway`,
records its outcome as the first status, then appends the Ollama
detection status. Returns (updated supervisor state, statuses). -/
def auto_start (gw : GatewayProcess) (spawn : SpawnOutcome)
    (ollamaProbe : ProbeOutcome) : GatewayProcess × List ServiceStatus :=
  let r := start_gateway gw spawn
  let gwStatus : ServiceStatus :=
    match r.1 with
    | .ok _ => ⟨"Gateway", true, some 18789, "starting",
        some "Gateway process started"⟩
    | .error e => ⟨"Gateway", false, some 18789, "error", some e⟩
  let ollama_running := detect_ollama ollamaProbe
  (r.2, [gwStatus,
    ⟨"Ollama", ollama_running, some 11434,
      if ollama_running then "healthy" else "not running", none⟩])

/-- One supervisor API call together with the environment outcome it
consumed; used to enumerate reachable `GatewayProcess` states. -/
inductive Event where
  | start (spawn : SpawnOutcome)
  | stop (kill : KillOutcome)
  | isRunning (probe : ProbeOutcome)
  | logs
  deriving DecidableEq, Repr

/-- State transition of one supervisor call. `is_gateway_running` and
`get_gateway_logs` only read the locked state in the source, so they leave
it unchanged. -/
def step (gw : GatewayProcess) : Event → GatewayProcess
  | .start s => (start_gateway gw s).2
  | .stop k => (stop_gateway gw k).2
  | .isRunning _ => gw
  | .logs => gw

/-- The supervisor state reached from the freshly created state after a
sequence of calls. -/
def run (events : List Event) : GatewayProcess :=
  events.foldl step GatewayProcess.new

end Openclaw

namespace Openclaw

/-- C1: For every supervisor state with a handle already recorded, a further
`start_gateway` returns the AlreadyRunning error and leaves the state
(handle and log buffer) unchanged. -/
theorem start_when_running_fails_and_preserves_state
    (gw : GatewayProcess) (c : Child) (spawn : SpawnOutcome)
    (h : gw.child = some c) :
    (start_gateway gw spawn).1 = .error "Gateway is already running"
    ∧ (start_gateway gw spawn).2 = gw := by
  simp [start_gateway, h]

/-- Witness for C1 at a concrete running state. -/
theorem start_when_running_fails_and_preserves_state_witness :
    (start_gateway ⟨some 7, ["[gateway] Started successfully"]⟩
        (SpawnOutcome.ok 9)).1 = .error "Gateway is already running"
    ∧ (start_gateway ⟨some 7, ["[gateway] Started successfully"]⟩
        (SpawnOutcome.ok 9)).2 = ⟨some 7, ["[gateway] Started successfully"]⟩ :=
  start_when_running_fails_and_preserves_state
    ⟨some 7, ["[gateway] Started successfully"]⟩ 7 (SpawnOutcome.ok 9) rfl

/-- C7: For every supervisor state with no handle tracked, `stop_gateway`
returns the NotRunning error and leaves the state (handle and log buffer)
unchanged. -/
theorem stop_when_not_running_fails_and_preserves_state
    (gw : GatewayProcess) (kill : KillOutcome) (h : gw.child = none) :
    (stop_gateway gw kill).1 = .error "Gateway is not running"
    ∧ (stop_gateway gw kill).2 = gw := by
  simp [stop_gateway, h]

/-- Witness for C7 at the freshly created state. -/
theorem stop_when_not_running_fails_and_preserves_state_witness :
    (stop_gateway GatewayProcess.new KillOutcome.ok).1
      = .error "Gateway is not running"
    ∧ (stop_gateway GatewayProcess.new KillOutcome.ok).2 = GatewayProcess.new :=
  stop_when_not_running_fails_and_preserves_state GatewayProcess.new
    KillOutcome.ok rfl

/-- C6: Failing supervisor operations leave the state unchanged: a failed
spawn makes `start_gateway` return the SpawnFailed reason with no handle
recorded and no log appended, and a failed kill makes `stop_gateway`
return the KillFailed reason with the existing handle (and logs) left in
place. -/
theorem failed_operations_preserve_state
    (gw gw' : GatewayProcess) (c : Child) (e e' : String)
    (hstart : gw.child = none) (hstop : gw'.child = some c) :
    start_gateway gw (.err e)
      = (.error ("Failed to start Gateway: " ++ e), gw)
    ∧ stop_gateway gw' (.err e')
      = (.error ("Failed to kill Gateway: " ++ e'), gw') := by
  constructor
  · simp [start_gateway, hstart]
  · simp [stop_gateway, hstop]

/-- Witness for C6 at concrete states and failure reasons. -/
theorem failed_operations_preserve_state_witness :
    start_gateway GatewayProcess.new (.err "ENOENT")
      = (.error ("Failed to start Gateway: " ++ "ENOENT"), GatewayProcess.new)
    ∧ stop_gateway ⟨some 3, ["[gateway] Started successfully"]⟩ (.err "EPERM")
      = (.error ("Failed to kill Gateway: " ++ "EPERM"),
          ⟨some 3, ["[gateway] Started successfully"]⟩) :=
  failed_operations_preserve_state GatewayProcess.new
    ⟨some 3, ["[gateway] Started successfully"]⟩ 3 "ENOENT" "EPERM" rfl rfl

/-- C2: `is_gateway_running` is false whenever no handle is tracked,
whatever the probe outcome would be; with a handle tracked it equals the
health-probe result (true iff the probe succeeds); and immediately after a
successful `stop_gateway` it is false for every probe outcome, including a
stale successful response. -/
theorem is_running_handle_and_probe
    (gw : GatewayProcess) (probe : ProbeOutcome) :
    (gw.child = none → is_gateway_running gw probe = false)
    ∧ (gw.child.isSome → is_gateway_running gw probe = health_check probe)
    ∧ (∀ kill, (stop_gateway gw kill).1 = .ok () →
        is_gateway_running (stop_gateway gw kill).2 probe = false) := by
  refine ⟨fun h => by simp [is_gateway_running, h], fun h => ?_, fun kill hk => ?_⟩
  · obtain ⟨c, hc⟩ := Option.isSome_iff_exists.mp h
    simp [is_gateway_running, hc]
  · rcases hc : gw.child with _ | c
    · simp [stop_gateway, hc] at hk
    · cases kill with
      | ok => simp [stop_gateway, hc, is_gateway_running]
      | err e => simp [stop_gateway, hc] at hk

/-- Witness for C2: the fresh state reports not running even against a
stale successful response, and after a successful stop the same holds. -/
theorem is_running_handle_and_probe_witness :
    is_gateway_running GatewayProcess.new (ProbeOutcome.response true) = false
    ∧ is_gateway_running
        (stop_gateway ⟨some 5, ["[gateway] Started successfully"]⟩
          KillOutcome.ok).2 (ProbeOutcome.response true) = false :=
  ⟨(is_running_handle_and_probe GatewayProcess.new
      (ProbeOutcome.response true)).1 rfl,
   (is_running_handle_and_probe ⟨some 5, ["[gateway] Started successfully"]⟩
      (ProbeOutcome.response true)).2.2 KillOutcome.ok rfl⟩

/-- C8: both probes (`detect_ollama` and the gateway health check) are
total Boolean functions of the probe outcome: connection errors, timeouts
and non-success responses all evaluate to false, and the probe evaluates
to true iff a response with a success status is received. -/
theorem probe_total_and_success_iff (o : ProbeOutcome) :
    detect_ollama ProbeOutcome.connError = false
    ∧ detect_ollama ProbeOutcome.timeout = false
    ∧ detect_ollama (ProbeOutcome.response false) = false
    ∧ (detect_ollama o = true ↔ o = ProbeOutcome.response true)
    ∧ health_check ProbeOutcome.connError = false
    ∧ health_check ProbeOutcome.timeout = false
    ∧ health_check (ProbeOutcome.response false) = false
    ∧ (health_check o = true ↔ o = ProbeOutcome.response true) := by
  refine ⟨rfl, rfl, rfl, ?_, rfl, rfl, rfl, ?_⟩ <;>
    cases o with
    | response s => cases s <;> simp [detect_ollama, health_check]
    | connError => simp [detect_ollama, health_check]
    | timeout => simp [detect_ollama, health_check]

/-- C5: every `check_all_services` report, for every supervisor state and
every combination of probe outcomes, contains exactly the registry's four
named services in declaration order: Gateway, Ollama, Docker, SearXNG. -/
theorem report_names_fixed (gw : GatewayProcess) (env : ProbeEnv) :
    (check_all_services gw env).map ServiceStatus.name
      = ["Gateway", "Ollama", "Docker", "SearXNG"]
    ∧ (check_all_services gw env).length = 4 := by
  simp [check_all_services]

/-- C3 counterexample: with the docker binary absent (both CLI
invocations fail), the SearXNG entry of the report carries health
"not running", not "not installed", refuting the claim that every
CLI-probed entry reports "not installed" exactly when the runtime binary
cannot be invoked. -/
theorem searxng_health_binary_absent_cex :
    ((check_all_services GatewayProcess.new
        ⟨ProbeOutcome.connError, ProbeOutcome.connError,
          CmdOutcome.err, CmdOutcome.err⟩).get? 3).map ServiceStatus.health
      = some "not running"
    ∧ ("not running" : String) ≠ "not installed" := by
  constructor
  · rfl
  · decide

/-- C3 amended: the Docker entry's health is "not installed" iff the
`docker info` invocation does not report success (covering both an absent
binary and a present binary whose query fails), while the SearXNG entry is
never "not installed": when the runtime binary cannot be invoked it
reports "not running", the same as when no active instance exists. -/
theorem cli_probe_health_amended (gw : GatewayProcess) (env : ProbeEnv) :
    (((check_all_services gw env).get? 2).map ServiceStatus.health
        = some "not installed" ↔ is_docker_available env.dockerInfo = false)
    ∧ ((check_all_services gw env).get? 3).map ServiceStatus.health
        ≠ some "not installed"
    ∧ (env.searxngPs = CmdOutcome.err →
        ((check_all_services gw env).get? 3).map ServiceStatus.health
          = some "not running") := by
  refine ⟨?_, ?_, fun h => ?_⟩
  · cases hd : is_docker_available env.dockerInfo <;>
      simp [check_all_services, hd]
  · cases hs : is_searxng_running env.searxngPs <;>
      simp [check_all_services, hs]
  · simp [check_all_services, is_searxng_running, h]

/-- Witness for C3 amended: docker daemon query fails while the SearXNG
query binary is absent. -/
theorem cli_probe_health_amended_witness :
    (((check_all_services GatewayProcess.new
        ⟨ProbeOutcome.timeout, ProbeOutcome.timeout,
          CmdOutcome.ok false "", CmdOutcome.err⟩).get? 2).map
        ServiceStatus.health = some "not installed"
      ↔ is_docker_available (CmdOutcome.ok false "") = false)
    ∧ ((check_all_services GatewayProcess.new
        ⟨ProbeOutcome.timeout, ProbeOutcome.timeout,
          CmdOutcome.ok false "", CmdOutcome.err⟩).get? 3).map
        ServiceStatus.health = some "not running" :=
  ⟨(cli_probe_health_amended GatewayProcess.new
      ⟨ProbeOutcome.timeout, ProbeOutcome.timeout,
        CmdOutcome.ok false "", CmdOutcome.err⟩).1,
   (cli_probe_health_amended GatewayProcess.new
      ⟨ProbeOutcome.timeout, ProbeOutcome.timeout,
        CmdOutcome.ok false "", CmdOutcome.err⟩).2.2 rfl⟩

/-- C4 counterexample: the bootstrap report of `auto_start` contains only
the Gateway and Ollama entries — no entry for the CLI-probed Docker or
SearXNG services — refuting the claim that it appends the status of every
CLI-probed registry service. -/
theorem auto_start_omits_cli_services_cex :
    ((auto_start GatewayProcess.new (SpawnOutcome.ok 1)
        ProbeOutcome.connError).2.map ServiceStatus.name)
      = ["Gateway", "Ollama"]
    ∧ "Docker" ∉ ((auto_start GatewayProcess.new (SpawnOutcome.ok 1)
        ProbeOutcome.connError).2.map ServiceStatus.name)
    ∧ "SearXNG" ∉ ((auto_start GatewayProcess.new (SpawnOutcome.ok 1)
        ProbeOutcome.connError).2.map ServiceStatus.name) := by
  refine ⟨rfl, ?_, ?_⟩ <;> decide

/-- C4 amended: `auto_start` attempts `start_gateway` and records its
outcome as the first `ServiceStatus` — success gives running=true and
health "starting", failure gives running=false, health "error" and the
failure reason in details — and then appends only the remote-only Ollama
status using plain detection; the CLI-probed services are neither started
nor included in the bootstrap report. -/
theorem auto_start_amended (gw : GatewayProcess) (spawn : SpawnOutcome)
    (p : ProbeOutcome) :
    ((start_gateway gw spawn).1 = .ok () →
      ((auto_start gw spawn p).2.head? = some ⟨"Gateway", true, some 18789,
          "starting", some "Gateway process started"⟩))
    ∧ (∀ e, (start_gateway gw spawn).1 = .error e →
      ((auto_start gw spawn p).2.head? = some ⟨"Gateway", false, some 18789,
          "error", some e⟩))
    ∧ (auto_start gw spawn p).2.map ServiceStatus.name = ["Gateway", "Ollama"]
    ∧ (auto_start gw spawn p).2.get? 1 = some ⟨"Ollama", detect_ollama p,
        some 11434, if detect_ollama p then "healthy" else "not running", none⟩
    ∧ (auto_start gw spawn p).1 = (start_gateway gw spawn).2 := by
  refine ⟨fun h => ?_, fun e h => ?_, ?_, ?_, ?_⟩
  · simp [auto_start, h]
  · simp [auto_start, h]
  · rcases hr : (start_gateway gw spawn).1 with _ | e <;> simp [auto_start, hr]
  · simp [auto_start]
  · simp [auto_start]

/-- Witness for C4 amended: a successful spawn from the fresh state and a
failed spawn, each recorded as the first status. -/
theorem auto_start_amended_witness :
    ((auto_start GatewayProcess.new (SpawnOutcome.ok 1)
        ProbeOutcome.connError).2.head? = some ⟨"Gateway", true, some 18789,
        "starting", some "Gateway process started"⟩)
    ∧ ((auto_start GatewayProcess.new (SpawnOutcome.err "ENOENT")
        ProbeOutcome.connError).2.head? = some ⟨"Gateway", false, some 18789,
        "error", some ("Failed to start Gateway: " ++ "ENOENT")⟩) :=
  ⟨(auto_start_amended GatewayProcess.new (SpawnOutcome.ok 1)
      ProbeOutcome.connError).1 rfl,
   (auto_start_amended GatewayProcess.new (SpawnOutcome.err "ENOENT")
      ProbeOutcome.connError).2.1 ("Failed to start Gateway: " ++ "ENOENT") rfl⟩

/-- Invariant of reachable supervisor states: either nothing has ever
succeeded (empty logs, no handle) or the very first log line is the
started marker. -/
def LogsInv (gw : GatewayProcess) : Prop :=
  (gw.logs = [] ∧ gw.child = none)
  ∨ gw.logs.head? = some "[gateway] Started successfully"

theorem logsInv_new : LogsInv GatewayProcess.new :=
  Or.inl ⟨rfl, rfl⟩

theorem logsInv_step (gw : GatewayProcess) (e : Event) (h : LogsInv gw) :
    LogsInv (step gw e) := by
  cases e with
  | start s =>
      rcases hc : gw.child with _ | c
      · cases s with
        | ok c' =>
            rcases h with ⟨hl, _⟩ | hh
            · right
              simp [step, start_gateway, hc, hl]
            · right
              rcases hlogs : gw.logs with _ | ⟨a, t⟩
              · rw [hlogs] at hh; simp at hh
              · rw [hlogs] at hh
                simp at hh
                simp [step, start_gateway, hc, hlogs, hh]
        | err e' => simpa [step, start_gateway, hc] using h
      · simpa [step, start_gateway, hc] using h
  | stop k =>
      rcases hc : gw.child with _ | c
      · simpa [step, stop_gateway, hc] using h
      · rcases h with ⟨_, hn⟩ | hh
        · rw [hn] at hc; exact absurd hc (by simp)
        · cases k with
          | ok =>
              right
              rcases hlogs : gw.logs with _ | ⟨a, t⟩
              · rw [hlogs] at hh; simp at hh
              · rw [hlogs] at hh
                simp at hh
                simp [step, stop_gateway, hc, hlogs, hh]
          | err e' =>
              have h' : LogsInv gw := Or.inr hh
              simpa [step, stop_gateway, hc] using h'
  | isRunning p => simpa [step] using h
  | logs => simpa [step] using h

theorem logsInv_foldl (gw : GatewayProcess) (h : LogsInv gw)
    (tr : List Event) : LogsInv (tr.foldl step gw) := by
  induction tr generalizing gw with
  | nil => exact h
  | cons e tl ih => exact ih _ (logsInv_step gw e h)

theorem logsInv_run (tr : List Event) : LogsInv (run tr) :=
  logsInv_foldl GatewayProcess.new logsInv_new tr

/-- C9: in every reachable supervisor state, a successful `start_gateway`
leaves the started marker as the first log entry; a successful
`stop_gateway` appends the stopped marker to the accumulated logs; and
`get_gateway_logs` returns exactly the accumulated log buffer (in
particular never an emptied one) while leaving the state unchanged. -/
theorem logs_markers_and_snapshot (tr : List Event) (spawn : SpawnOutcome)
    (kill : KillOutcome) :
    ((start_gateway (run tr) spawn).1 = .ok () →
      (start_gateway (run tr) spawn).2.logs.head?
        = some "[gateway] Started successfully")
    ∧ ((stop_gateway (run tr) kill).1 = .ok () →
      (stop_gateway (run tr) kill).2.logs
        = (run tr).logs ++ ["[gateway] Stopped"])
    ∧ get_gateway_logs (run tr) = (run tr).logs
    ∧ step (run tr) Event.logs = run tr := by
  refine ⟨fun hs => ?_, fun hk => ?_, rfl, rfl⟩
  · rcases hc : (run tr).child with _ | c
    · cases spawn with
      | ok c' =>
          have hinv := logsInv_run tr
          rcases hinv with ⟨hl, _⟩ | hh
          · simp [start_gateway, hc, hl]
          · rcases hlogs : (run tr).logs with _ | ⟨a, t⟩
            · rw [hlogs] at hh; simp at hh
            · rw [hlogs] at hh
              simp at hh
              simp [start_gateway, hc, hlogs, hh]
      | err e' => simp [start_gateway, hc] at hs
    · simp [start_gateway, hc] at hs
  · rcases hc : (run tr).child with _ | c
    · simp [stop_gateway, hc] at hk
    · cases kill with
      | ok => simp [stop_gateway, hc]
      | err e' => simp [stop_gateway, hc] at hk

/-- Witness for C9: a successful start from the fresh state puts the
started marker first, and a successful stop after that start appends the
stopped marker. -/
theorem logs_markers_and_snapshot_witness :
    ((start_gateway (run []) (SpawnOutcome.ok 2)).2.logs.head?
        = some "[gateway] Started successfully")
    ∧ ((stop_gateway (run [Event.start (SpawnOutcome.ok 2)])
          KillOutcome.ok).2.logs
        = (run [Event.start (SpawnOutcome.ok 2)]).logs
            ++ ["[gateway] Stopped"]) :=
  ⟨(logs_markers_and_snapshot [] (SpawnOutcome.ok 2) KillOutcome.ok).1 rfl,
   (logs_markers_and_snapshot [Event.start (SpawnOutcome.ok 2)]
      (SpawnOutcome.ok 2) KillOutcome.ok).2.1 rfl⟩

/-- C10: for every state with a tracked handle, the only call that clears
the handle is a successful stop (`is_gateway_running` and
`get_gateway_logs` never change the state at all), and every
`start_gateway` fails with the AlreadyRunning error while the handle — in
particular one whose child has already exited externally, since no call
observes or reaps that exit — remains recorded. -/
theorem stale_handle_persists_until_stop
    (gw : GatewayProcess) (e : Event) (c : Child) (h : gw.child = some c) :
    ((step gw e).child = none → e = Event.stop KillOutcome.ok)
    ∧ (∀ p, step gw (Event.isRunning p) = gw)
    ∧ step gw Event.logs = gw
    ∧ (∀ s, (start_gateway gw s).1 = .error "Gateway is already running"
        ∧ (start_gateway gw s).2.child = some c) := by
  refine ⟨fun hn => ?_, fun p => rfl, rfl, fun s => ?_⟩
  · cases e with
    | start s => simp [step, start_gateway, h] at hn
    | stop k =>
        cases k with
        | ok => rfl
        | err e' => simp [step, stop_gateway, h] at hn
    | isRunning p => simp [step, h] at hn
    | logs => simp [step, h] at hn
  · constructor <;> simp [start_gateway, h]

/-- Witness for C10 at a concrete running state: a successful stop is the
clearing call, probes leave the state unchanged, and a retried start
fails with AlreadyRunning keeping the handle. -/
theorem stale_handle_persists_until_stop_witness :
    (Event.stop KillOutcome.ok = Event.stop KillOutcome.ok)
    ∧ step ⟨some 4, ["[gateway] Started successfully"]⟩
        (Event.isRunning ProbeOutcome.timeout)
        = ⟨some 4, ["[gateway] Started successfully"]⟩
    ∧ (start_gateway ⟨some 4, ["[gateway] Started successfully"]⟩
        (SpawnOutcome.ok 8)).1 = .error "Gateway is already running" :=
  ⟨(stale_handle_persists_until_stop
      ⟨some 4, ["[gateway] Started successfully"]⟩ (Event.stop KillOutcome.ok)
      4 rfl).1 rfl,
   (stale_handle_persists_until_stop
      ⟨some 4, ["[gateway] Started successfully"]⟩ Event.logs 4 rfl).2.1
      ProbeOutcome.timeout,
   ((stale_handle_persists_until_stop
      ⟨some 4, ["[gateway] Started successfully"]⟩ Event.logs 4 rfl).2.2.2
      (SpawnOutcome.ok 8)).1⟩

end Openclaw
